import Mathlib

/-
  Shallow embedding of VolTrayke's application controller
  (src/application.cpp, class Qtilities::Application).

  The controller owns at most one active audio engine and one active
  channel, wires UI events (tray icon, popup volume menu, preferences
  dialog) to control calls on the channel, and persists settings on quit.

  Modelling conventions:
  - Qt signal/slot connections that matter to the claims are modelled as
    booleans (`chanConn` for the channel's muteChanged/volumeChanged
    connections, `engConn` for the engine's sinkListChanged connection).
  - Control calls made on the active channel (setVolume / setMute /
    toggleMute) are recorded in an output trace; the device state that
    results from a control call is supplied by an abstract `Backend`
    function, since the concrete device code (audio/device/*.cpp) calls
    into ALSA/PulseAudio and is outside this translation unit.
  - `QList::at` with an out-of-range index, and a member call through a
    null `channel_` pointer, are undefined behaviour in the C++ source;
    functions that can hit them return `Option`, with `none` marking the
    undefined execution.
  - The build is modelled with both USE_ALSA and USE_PULSEAUDIO defined,
    matching the full build of the project.
-/

namespace VolTrayke

/-- A control call made on the active audio channel (AudioDevice). -/
inductive ControlCall
  | setVolume (volume : Int)
  | setMute (muted : Bool)
  | toggleMute
  deriving Repr, DecidableEq

/-- One output sink (class AudioDevice): volume, mute state, description. -/
structure AudioDevice where
  volume : Int
  mute : Bool
  description : String
  deriving Repr, DecidableEq

/-- One backend engine (class AudioEngine): its id, its list of sinks,
and the normalized flag set from settings. -/
structure AudioEngine where
  id : Int
  sinks : List AudioDevice
  normalized : Bool
  deriving Repr, DecidableEq

/-- The key/value preferences (class Settings) used by the controller. -/
structure Settings where
  engineId : Int
  channelId : Int
  useAutostart : Bool
  muteOnMiddleClick : Bool
  normalized : Bool
  deriving Repr, DecidableEq

/-- The popup volume menu (class MenuVolume), as seen by the controller:
its displayed volume and mute state, and whether it was shown/popped up. -/
structure MenuVolume where
  volume : Int
  mute : Bool
  visible : Bool
  poppedUp : Bool
  deriving Repr, DecidableEq

/-- The tray icon: the name of the theme icon currently installed. -/
structure TrayIcon where
  iconName : String
  deriving Repr, DecidableEq

/-- The preferences dialog (class DialogPrefs), as seen by the controller:
the device list shown to the user. -/
structure DialogPrefs where
  deviceList : List String
  deriving Repr, DecidableEq

/-- The controller state: the members of Qtilities::Application that the
claims speak about. `engine` is `engine_`, `channel` is `channel_`,
`chanConn` records whether the channel's muteChanged/volumeChanged signals
are connected to the application, `engConn` whether the engine's
sinkListChanged signal is connected, `autostartChecked` is
`actAutoStart_->isChecked()`. -/
structure AppState where
  engine : Option AudioEngine
  channel : Option AudioDevice
  chanConn : Bool
  engConn : Bool
  settings : Settings
  mnuVolume : MenuVolume
  trayIcon : TrayIcon
  dlgPrefs : DialogPrefs
  autostartChecked : Bool
  deriving Repr, DecidableEq

/-- Modelled from the spec: the EngineId enumeration lives in a header
that is not part of this translation unit; only the existence of two
distinct backend ids (ALSA and PulseAudio) matters to the controller. -/
def EngineId.Alsa : Int := 0

/-- Modelled from the spec: the PulseAudio backend id (see EngineId.Alsa). -/
def EngineId.PulseAudio : Int := 1

/-- The icon-name computation inside Application::updateTrayIcon:
volume <= 0 or muted gives muted, then thresholds at 33 and 66. -/
def iconNameFor (volume : Int) (mute : Bool) : String :=
  if volume ≤ 0 ∨ mute = true then "audio-volume-muted"
  else if volume ≤ 33 then "audio-volume-low"
  else if volume ≤ 66 then "audio-volume-medium"
  else "audio-volume-high"

/-- Application::updateTrayIcon. It dereferences `channel_` without a
null check; a null channel is undefined behaviour, modelled as `none`. -/
def updateTrayIcon (s : AppState) : Option AppState :=
  match s.channel with
  | none => none
  | some ch =>
      some { s with trayIcon := { iconName := iconNameFor ch.volume ch.mute } }

/-- Abstract behaviour of a concrete audio device under a control call.
The concrete code (audio/device/alsa.cpp etc.) calls into the native
audio libraries and is outside this translation unit. -/
def Backend : Type := ControlCall → AudioDevice → AudioDevice

/-- The MenuVolume::sigVolumeChanged handler (lambda in the Application
constructor): if no channel, return; else setVolume on the channel and
updateTrayIcon. Returns the new state and the trace of control calls. -/
def onSigVolumeChanged (bk : Backend) (s : AppState) (volume : Int) :
    Option AppState × List ControlCall :=
  match s.channel with
  | none => (some s, [])
  | some ch =>
      let ch2 := bk (ControlCall.setVolume volume) ch
      (updateTrayIcon { s with channel := some ch2 },
       [ControlCall.setVolume volume])

/-- The MenuVolume::sigMuteToggled handler (lambda in the Application
constructor): if no channel, return; else setMute and updateTrayIcon. -/
def onSigMuteToggled (bk : Backend) (s : AppState) (muted : Bool) :
    Option AppState × List ControlCall :=
  match s.channel with
  | none => (some s, [])
  | some ch =>
      let ch2 := bk (ControlCall.setMute muted) ch
      (updateTrayIcon { s with channel := some ch2 },
       [ControlCall.setMute muted])

/-- The switch statement of Application::onAudioEngineChanged: construct
the engine for the requested id (its sink list supplied by the backend),
call setNormalized, and connect sinkListChanged; unknown ids set the
engine to null and return without connecting. -/
def installEngine (alsaSinks pulseSinks : List AudioDevice)
    (s : AppState) (engineId : Int) : AppState :=
  if engineId = EngineId.Alsa then
    { s with
        engine := some { id := EngineId.Alsa, sinks := alsaSinks,
                         normalized := s.settings.normalized },
        engConn := true }
  else if engineId = EngineId.PulseAudio then
    { s with
        engine := some { id := EngineId.PulseAudio, sinks := pulseSinks,
                         normalized := s.settings.normalized },
        engConn := true }
  else
    { s with engine := none }

/-- Application::onAudioEngineChanged: if an engine is active with the
same id, return; otherwise disconnect and clear the channel (when there
is one), disconnect the old engine's sinkListChanged, and install the
new engine. -/
def onAudioEngineChanged (alsaSinks pulseSinks : List AudioDevice)
    (s : AppState) (engineId : Int) : AppState :=
  match s.engine with
  | some e =>
      if e.id = engineId then s
      else
        let s1 := if s.channel.isSome
                  then { s with channel := none, chanConn := false }
                  else s
        installEngine alsaSinks pulseSinks { s1 with engConn := false } engineId
  | none => installEngine alsaSinks pulseSinks s engineId

/-- Application::onAudioDeviceChanged: return if no engine or no sinks;
clamp a negative id to 0; take the sink at that index (out of range is
undefined behaviour for QList::at, modelled as `none`) and connect its
muteChanged/volumeChanged signals. -/
def onAudioDeviceChanged (s : AppState) (deviceId : Int) : Option AppState :=
  match s.engine with
  | none => some s
  | some e =>
      if e.sinks.length ≤ 0 then some s
      else
        let d : Int := if deviceId < 0 then 0 else deviceId
        match e.sinks.get? d.toNat with
        | none => none
        | some ch => some { s with channel := some ch, chanConn := true }

/-- Application::onAudioDeviceListChanged: if an engine is active, set
the preferences dialog's device list to the descriptions of its sinks. -/
def onAudioDeviceListChanged (s : AppState) : AppState :=
  match s.engine with
  | none => s
  | some e =>
      { s with dlgPrefs := { s.dlgPrefs with
          deviceList := e.sinks.map (fun d => d.description) } }

/-- The AudioDevice::muteChanged handler (lambda in
Application::onAudioDeviceChanged): update the menu's mute state and
updateTrayIcon. -/
def onChannelMuteChanged (s : AppState) (muted : Bool) : Option AppState :=
  updateTrayIcon { s with mnuVolume := { s.mnuVolume with mute := muted } }

/-- The AudioDevice::volumeChanged handler (lambda in
Application::onAudioDeviceChanged): update the menu's volume and
updateTrayIcon. -/
def onChannelVolumeChanged (s : AppState) (volume : Int) : Option AppState :=
  updateTrayIcon { s with mnuVolume := { s.mnuVolume with volume := volume } }

/-- What the controller persists at quit. `prefsDialogSaved` records that
DialogPrefs::saveSettings ran (its body is outside this translation
unit), `savedSettings` is the settings object written by
Settings::save, `autostartFile` whether the autostart file exists. -/
structure SavedState where
  prefsDialogSaved : Bool
  savedSettings : Option Settings
  autostartFile : Bool
  deriving Repr, DecidableEq

/-- Application::onAboutToQuit: save the preferences dialog's settings,
store the autostart flag from the action's checked state, create or
delete the autostart file accordingly, and save the settings object. -/
def onAboutToQuit (s : AppState) (store : SavedState) :
    AppState × SavedState :=
  let store1 := { store with prefsDialogSaved := true }
  let st := { s.settings with useAutostart := s.autostartChecked }
  let store2 := { store1 with autostartFile := st.useAutostart }
  ({ s with settings := st }, { store2 with savedSettings := some st })

/-- QSystemTrayIcon::ActivationReason. -/
inductive ActivationReason
  | Unknown
  | Context
  | DoubleClick
  | Trigger
  | MiddleClick
  deriving Repr, DecidableEq

/-- Application::onTrayIconActivated: Trigger or DoubleClick shows and
pops up the volume menu; otherwise, when a channel exists, the
mute-on-middle-click setting holds and the reason is MiddleClick,
toggleMute is called on the channel. -/
def onTrayIconActivated (s : AppState) (reason : ActivationReason) :
    AppState × List ControlCall :=
  if reason = ActivationReason.Trigger ∨ reason = ActivationReason.DoubleClick then
    ({ s with mnuVolume := { s.mnuVolume with visible := true, poppedUp := true } },
     [])
  else if s.channel.isSome = true ∧ s.settings.muteOnMiddleClick = true ∧
          reason = ActivationReason.MiddleClick then
    (s, [ControlCall.toggleMute])
  else
    (s, [])

/-- The audio-setup portion of Application::initUi, after settings are
loaded (the input state carries the loaded settings): engine change to
the saved engine id, device change to the saved channel id, device-list
rebuild, an unconditional updateTrayIcon, then — only if a channel
exists — the menu volume is initialised; finally the autostart action's
checked state is set from settings. -/
def initUi (alsaSinks pulseSinks : List AudioDevice) (s0 : AppState) :
    Option AppState :=
  let s1 := onAudioEngineChanged alsaSinks pulseSinks s0 s0.settings.engineId
  match onAudioDeviceChanged s1 s1.settings.channelId with
  | none => none
  | some s2 =>
      let s3 := onAudioDeviceListChanged s2
      match updateTrayIcon s3 with
      | none => none
      | some s4 =>
          let s5 :=
            match s4.channel with
            | some ch =>
                { s4 with mnuVolume := { s4.mnuVolume with volume := ch.volume } }
            | none => s4
          some { s5 with autostartChecked := s5.settings.useAutostart }

/- Concrete values used by witnesses. -/

/-- A concrete backend for witnesses: control calls act on the model
device fields in the obvious way. -/
def bkExample : Backend := fun c d =>
  match c with
  | ControlCall.setVolume v => { d with volume := v }
  | ControlCall.setMute m => { d with mute := m }
  | ControlCall.toggleMute => { d with mute := !d.mute }

/-- A concrete sink for witnesses. -/
def dev0 : AudioDevice := { volume := 50, mute := false, description := "Master" }

/-- Concrete settings for witnesses. -/
def settings0 : Settings :=
  { engineId := 0, channelId := 0, useAutostart := false,
    muteOnMiddleClick := true, normalized := false }

/-- A concrete controller state with no engine and no channel. -/
def appNoChannel : AppState :=
  { engine := none, channel := none, chanConn := false, engConn := false,
    settings := settings0,
    mnuVolume := { volume := 50, mute := false, visible := false, poppedUp := false },
    trayIcon := { iconName := "audio-volume-medium" },
    dlgPrefs := { deviceList := [] },
    autostartChecked := false }

/-- A concrete engine for witnesses, holding the one sink dev0. -/
def engine0 : AudioEngine := { id := 0, sinks := [dev0], normalized := false }

/-- A concrete controller state with an active engine and channel. -/
def appWithChannel : AppState :=
  { appNoChannel with
      engine := some engine0, channel := some dev0,
      chanConn := true, engConn := true }

/-- A concrete persisted store for witnesses. -/
def store0 : SavedState :=
  { prefsDialogSaved := false, savedSettings := none, autostartFile := false }

/-- A concrete startup state whose saved engine id selects PulseAudio. -/
def appStartupPulse : AppState :=
  { appNoChannel with settings := { settings0 with engineId := 1 } }

/- Helper lemmas. -/

/-- installEngine touches only the engine and its connection. -/
theorem installEngine_preserves_channel (a p : List AudioDevice)
    (s : AppState) (i : Int) :
    (installEngine a p s i).channel = s.channel ∧
    (installEngine a p s i).chanConn = s.chanConn := by
  unfold installEngine
  split
  · exact ⟨rfl, rfl⟩
  · split
    · exact ⟨rfl, rfl⟩
    · exact ⟨rfl, rfl⟩

/- Claim theorems. -/

/-- C1: for every volume value delivered by the popup menu's
volume-changed event, if an active channel exists the application calls
setVolume with that exact value on the channel and then refreshes the
tray icon from the channel's resulting state; if no channel exists the
state is unchanged and no control call is made. -/
theorem sigVolumeChanged_spec (bk : Backend) (s : AppState) (v : Int) :
    (s.channel = none → onSigVolumeChanged bk s v = (some s, [])) ∧
    (∀ ch, s.channel = some ch →
      onSigVolumeChanged bk s v =
        (some { s with
                  channel := some (bk (ControlCall.setVolume v) ch),
                  trayIcon := { iconName :=
                    (iconNameFor (bk (ControlCall.setVolume v) ch).volume
                      (bk (ControlCall.setVolume v) ch).mute) } },
         [ControlCall.setVolume v])) := by
  constructor
  · intro h
    simp [onSigVolumeChanged, h]
  · intro ch h
    simp [onSigVolumeChanged, h, updateTrayIcon]

/-- Witness for C1: the volume-changed handler at 80 on a state with an
active channel issues exactly setVolume 80 and refreshes the icon. -/
theorem sigVolumeChanged_spec_witness :
    onSigVolumeChanged bkExample appWithChannel 80 =
      (some { appWithChannel with
                channel := some (bkExample (ControlCall.setVolume 80) dev0),
                trayIcon := { iconName :=
                  (iconNameFor (bkExample (ControlCall.setVolume 80) dev0).volume
                    (bkExample (ControlCall.setVolume 80) dev0).mute) } },
       [ControlCall.setVolume 80]) :=
  (sigVolumeChanged_spec bkExample appWithChannel 80).2 dev0 rfl

/-- C2: switching to a different engine id clears the channel reference
and, when a channel was present, disconnects its connections, so the old
channel never remains active alongside the new engine. -/
theorem engineSwitch_clears_channel (a p : List AudioDevice) (s : AppState)
    (engineId : Int) (e : AudioEngine) (he : s.engine = some e)
    (hne : e.id ≠ engineId) :
    (onAudioEngineChanged a p s engineId).channel = none ∧
    (s.channel.isSome = true →
      (onAudioEngineChanged a p s engineId).chanConn = false) := by
  rcases hch : s.channel with _ | ch
  · have key : onAudioEngineChanged a p s engineId =
        installEngine a p { s with engConn := false } engineId := by
      simp [onAudioEngineChanged, he, hne, hch]
    rcases installEngine_preserves_channel a p
        { s with engConn := false } engineId with ⟨hc, hcc⟩
    rw [key]
    exact ⟨by rw [hc]; exact hch, fun hcontra => by simp [hch] at hcontra⟩
  · have key : onAudioEngineChanged a p s engineId =
        installEngine a p
          { s with channel := none, chanConn := false, engConn := false }
          engineId := by
      simp [onAudioEngineChanged, he, hne, hch]
    rcases installEngine_preserves_channel a p
        { s with channel := none, chanConn := false, engConn := false }
        engineId with ⟨hc, hcc⟩
    rw [key]
    exact ⟨by rw [hc], fun _ => by rw [hcc]⟩

/-- Witness for C2: switching from the ALSA engine (id 0) to id 1 on a
state with an active channel clears the channel and its connections. -/
theorem engineSwitch_clears_channel_witness :
    (onAudioEngineChanged [dev0] [] appWithChannel 1).channel = none ∧
    (appWithChannel.channel.isSome = true →
      (onAudioEngineChanged [dev0] [] appWithChannel 1).chanConn = false) :=
  engineSwitch_clears_channel [dev0] [] appWithChannel 1 engine0 rfl (by decide)

/-- C3: Trigger or DoubleClick shows and pops up the volume menu with no
control call; MiddleClick calls toggleMute exactly when a channel exists
and mute-on-middle-click is enabled, and otherwise changes nothing;
Unknown and Context activations do nothing. -/
theorem trayIconActivated_spec (s : AppState) (reason : ActivationReason) :
    ((reason = ActivationReason.Trigger ∨ reason = ActivationReason.DoubleClick) →
      onTrayIconActivated s reason =
        ({ s with mnuVolume :=
            { s.mnuVolume with visible := true, poppedUp := true } }, [])) ∧
    (reason = ActivationReason.MiddleClick →
      ((s.channel.isSome = true ∧ s.settings.muteOnMiddleClick = true) →
        onTrayIconActivated s reason = (s, [ControlCall.toggleMute])) ∧
      (¬(s.channel.isSome = true ∧ s.settings.muteOnMiddleClick = true) →
        onTrayIconActivated s reason = (s, []))) ∧
    ((reason = ActivationReason.Unknown ∨ reason = ActivationReason.Context) →
      onTrayIconActivated s reason = (s, [])) := by
  refine ⟨fun h => ?_, fun h => ⟨fun hc => ?_, fun hc => ?_⟩, fun h => ?_⟩
  · rcases h with h | h <;> subst h <;> simp [onTrayIconActivated]
  · subst h
    simp [onTrayIconActivated, hc.1, hc.2]
  · subst h
    rcases Decidable.not_and_iff_or_not.mp hc with hn | hn <;>
      simp [onTrayIconActivated, hn]
  · rcases h with h | h <;> subst h <;> simp [onTrayIconActivated]

/-- Witness for C3: MiddleClick on a state with an active channel and
mute-on-middle-click enabled issues exactly toggleMute. -/
theorem trayIconActivated_spec_witness :
    onTrayIconActivated appWithChannel ActivationReason.MiddleClick =
      (appWithChannel, [ControlCall.toggleMute]) :=
  ((trayIconActivated_spec appWithChannel ActivationReason.MiddleClick).2.1
    rfl).1 ⟨rfl, rfl⟩

/-- C4: the sink-list-changed handler rebuilds the preferences dialog's
device list as exactly the descriptions of the engine's sinks in order;
with no active engine the state (and so the device list) is unchanged. -/
theorem deviceListChanged_spec (s : AppState) :
    (∀ e, s.engine = some e →
      onAudioDeviceListChanged s =
        { s with dlgPrefs := { s.dlgPrefs with
            deviceList := e.sinks.map (fun d => d.description) } }) ∧
    (s.engine = none → onAudioDeviceListChanged s = s) := by
  constructor
  · intro e he
    simp [onAudioDeviceListChanged, he]
  · intro h
    simp [onAudioDeviceListChanged, h]

/-- Witness for C4: on a state whose engine holds the one sink dev0, the
device list becomes the one-element list of its description. -/
theorem deviceListChanged_spec_witness :
    onAudioDeviceListChanged appWithChannel =
      { appWithChannel with dlgPrefs := { appWithChannel.dlgPrefs with
          deviceList := engine0.sinks.map (fun d => d.description) } } :=
  (deviceListChanged_spec appWithChannel).1 engine0 rfl

/-- C5: the active channel's mute-changed handler sets the menu's mute
state to the event value and refreshes the tray icon, and its
volume-changed handler sets the menu's volume to the event value and
refreshes the tray icon. -/
theorem channelEvents_update_ui (s : AppState) (ch : AudioDevice)
    (h : s.channel = some ch) (m : Bool) (v : Int) :
    onChannelMuteChanged s m =
      some { s with mnuVolume := { s.mnuVolume with mute := m },
                    trayIcon := { iconName := iconNameFor ch.volume ch.mute } } ∧
    onChannelVolumeChanged s v =
      some { s with mnuVolume := { s.mnuVolume with volume := v },
                    trayIcon := { iconName := iconNameFor ch.volume ch.mute } } := by
  constructor <;>
    simp [onChannelMuteChanged, onChannelVolumeChanged, updateTrayIcon, h]

/-- Witness for C5: on a state with active channel dev0 the handlers
write the event values into the menu and refresh the icon. -/
theorem channelEvents_update_ui_witness :
    onChannelMuteChanged appWithChannel true =
      some { appWithChannel with
               mnuVolume := { appWithChannel.mnuVolume with mute := true },
               trayIcon := { iconName := iconNameFor dev0.volume dev0.mute } } ∧
    onChannelVolumeChanged appWithChannel 10 =
      some { appWithChannel with
               mnuVolume := { appWithChannel.mnuVolume with volume := 10 },
               trayIcon := { iconName := iconNameFor dev0.volume dev0.mute } } :=
  channelEvents_update_ui appWithChannel dev0 rfl true 10

/-- C6: on quit the controller marks the preferences dialog's settings
saved, persists the settings object with the autostart flag taken from
the action's checked state, creates/deletes the autostart file per that
flag, and the persisted store is independent of the audio state: any two
states agreeing on settings and the checked state persist identically. -/
theorem aboutToQuit_spec (s t : AppState) (store : SavedState)
    (hset : t.settings = s.settings)
    (hauto : t.autostartChecked = s.autostartChecked) :
    (onAboutToQuit s store).2.prefsDialogSaved = true ∧
    (onAboutToQuit s store).2.savedSettings =
      some { s.settings with useAutostart := s.autostartChecked } ∧
    (onAboutToQuit s store).2.autostartFile = s.autostartChecked ∧
    (onAboutToQuit t store).2 = (onAboutToQuit s store).2 := by
  refine ⟨rfl, rfl, rfl, ?_⟩
  simp [onAboutToQuit, hset, hauto]

/-- Witness for C6: the quiescent and the active-channel states persist
the same store, with the settings saved and no autostart file. -/
theorem aboutToQuit_spec_witness :
    (onAboutToQuit appNoChannel store0).2.prefsDialogSaved = true ∧
    (onAboutToQuit appNoChannel store0).2.savedSettings =
      some { appNoChannel.settings with
               useAutostart := appNoChannel.autostartChecked } ∧
    (onAboutToQuit appNoChannel store0).2.autostartFile =
      appNoChannel.autostartChecked ∧
    (onAboutToQuit appWithChannel store0).2 = (onAboutToQuit appNoChannel store0).2 :=
  aboutToQuit_spec appNoChannel appWithChannel store0 rfl rfl

/-- C7: requesting a switch to the id of the already-active engine is a
complete no-op: the state is returned unchanged. -/
theorem engineSwitch_sameId_noop (a p : List AudioDevice) (s : AppState)
    (e : AudioEngine) (he : s.engine = some e) :
    onAudioEngineChanged a p s e.id = s := by
  simp [onAudioEngineChanged, he]

/-- Witness for C7: re-requesting engine id 0 on a state whose active
engine has id 0 changes nothing. -/
theorem engineSwitch_sameId_noop_witness :
    onAudioEngineChanged [dev0] [] appWithChannel engine0.id = appWithChannel :=
  engineSwitch_sameId_noop [dev0] [] appWithChannel engine0 rfl

/-- C8: the tray icon name is the pure function iconNameFor of volume
and mute with thresholds 0, 33, 66, and updateTrayIcon installs exactly
iconNameFor applied to the active channel's volume and mute. -/
theorem trayIcon_thresholds (v : Int) (m : Bool) (s : AppState)
    (ch : AudioDevice) (h : s.channel = some ch) :
    ((v ≤ 0 ∨ m = true) → iconNameFor v m = "audio-volume-muted") ∧
    (0 < v → m = false → v ≤ 33 → iconNameFor v m = "audio-volume-low") ∧
    (0 < v → m = false → 33 < v → v ≤ 66 →
      iconNameFor v m = "audio-volume-medium") ∧
    (0 < v → m = false → 66 < v → iconNameFor v m = "audio-volume-high") ∧
    updateTrayIcon s =
      some { s with trayIcon := { iconName := iconNameFor ch.volume ch.mute } } := by
  refine ⟨fun hvm => ?_, fun h1 h2 h3 => ?_, fun h1 h2 h3 h4 => ?_,
          fun h1 h2 h3 => ?_, ?_⟩
  · unfold iconNameFor
    rw [if_pos hvm]
  · subst h2
    unfold iconNameFor
    rw [if_neg (by simp; omega), if_pos h3]
  · subst h2
    unfold iconNameFor
    rw [if_neg (by simp; omega), if_neg (by omega), if_pos h4]
  · subst h2
    unfold iconNameFor
    rw [if_neg (by simp; omega), if_neg (by omega), if_neg (by omega)]
  · simp [updateTrayIcon, h]

/-- Witness for C8: volume 50 unmuted gives the medium icon, and
updateTrayIcon on the concrete active-channel state installs it. -/
theorem trayIcon_thresholds_witness :
    iconNameFor 50 false = "audio-volume-medium" ∧
    updateTrayIcon appWithChannel =
      some { appWithChannel with
               trayIcon := { iconName := iconNameFor dev0.volume dev0.mute } } :=
  ⟨(trayIcon_thresholds 50 false appWithChannel dev0 rfl).2.2.1
      (by decide) rfl (by decide) (by decide),
   (trayIcon_thresholds 50 false appWithChannel dev0 rfl).2.2.2.2⟩

/-- C9: a device-change request leaves the state unchanged when there is
no engine or the sink list is empty; a negative id is clamped to 0, so
with a nonempty sink list the first sink becomes the channel; a
nonnegative in-range id selects the sink at that index. -/
theorem deviceChanged_spec (s : AppState) (deviceId : Int) :
    (s.engine = none → onAudioDeviceChanged s deviceId = some s) ∧
    (∀ e, s.engine = some e → e.sinks = [] →
      onAudioDeviceChanged s deviceId = some s) ∧
    (∀ e ch rest, s.engine = some e → e.sinks = ch :: rest → deviceId < 0 →
      onAudioDeviceChanged s deviceId =
        some { s with channel := some ch, chanConn := true }) ∧
    (∀ e ch, s.engine = some e → 0 ≤ deviceId →
      e.sinks.get? deviceId.toNat = some ch →
      onAudioDeviceChanged s deviceId =
        some { s with channel := some ch, chanConn := true }) := by
  refine ⟨fun h => ?_, fun e he hs => ?_, fun e ch rest he hs hneg => ?_,
          fun e ch he hpos hget => ?_⟩
  · simp [onAudioDeviceChanged, h]
  · simp [onAudioDeviceChanged, he, hs]
  · simp [onAudioDeviceChanged, he, hs, hneg]
  · have hget2 : e.sinks[deviceId.toNat]? = some ch := by
      rw [← List.get?_eq_getElem?]; exact hget
    have hlt : deviceId.toNat < e.sinks.length := (List.get?_eq_some.mp hget).1
    have hlen : ¬ e.sinks.length ≤ 0 := by omega
    have hnotneg : ¬ deviceId < 0 := by omega
    simp [onAudioDeviceChanged, he, hlen, hnotneg, hget2]

/-- Witness for C9: device id 0 on a state whose engine holds the one
sink dev0 makes dev0 the active channel and connects it. -/
theorem deviceChanged_spec_witness :
    onAudioDeviceChanged appWithChannel 0 =
      some { appWithChannel with channel := some dev0, chanConn := true } :=
  (deviceChanged_spec appWithChannel 0).2.2.2 engine0 dev0 rfl (by decide) rfl

/-- C10 fails on the code: on the startup path through initUi with a
saved engine whose sink list is empty (here PulseAudio with no sinks),
no channel is ever selected, yet initUi calls updateTrayIcon
unconditionally; the state reaching that call has a null channel, so the
unguarded dereference executes (modelled as none). -/
theorem initUi_null_channel_deref :
    (onAudioDeviceChanged
        (onAudioEngineChanged [] [] appStartupPulse appStartupPulse.settings.engineId)
        (onAudioEngineChanged [] [] appStartupPulse
            appStartupPulse.settings.engineId).settings.channelId).map
      (fun s2 => (onAudioDeviceListChanged s2).channel) = some none ∧
    (onAudioDeviceChanged
        (onAudioEngineChanged [] [] appStartupPulse appStartupPulse.settings.engineId)
        (onAudioEngineChanged [] [] appStartupPulse
            appStartupPulse.settings.engineId).settings.channelId).map
      (fun s2 => updateTrayIcon (onAudioDeviceListChanged s2)) = some none ∧
    initUi [] [] appStartupPulse = none := by
  refine ⟨rfl, rfl, rfl⟩

end VolTrayke
